import Mathlib

/-!
Verification development for the comfaca-flask-api repository, a Flask service
that renders Jinja2 HTML templates and converts them to PDF with WeasyPrint.

The embedding models, from the source:
  - path handling as performed by pathlib.PurePosixPath (services and routes
    run on a POSIX filesystem inside the container);
  - the filesystem as an explicit state value threaded through the service;
  - services/generate_pdf_service.py: the GeneratePdfService.generate_pdf
    method, with the Jinja2 render step and the WeasyPrint HTML-to-PDF step
    abstracted as an explicit Engine parameter (their internals are external
    libraries, not part of this repository);
  - app.py: the POST /api/generate-pdf and GET /api/render-template request
    handlers and the app-level registration values;
  - services/auth_middleware.py: the Basic-Auth before-request hook, with
    byte-accurate base64 decoding (Python 3.11 b64decode with validate=True),
    strict UTF-8 decoding, and the ASCII-only restriction of
    hmac.compare_digest.
-/

namespace Comfaca

/-! ### pathlib.PurePosixPath semantics

PurePosixPath parses a string by splitting on the slash, dropping empty
components and single-dot components (double-dot components are kept).
The properties used by the source are name, stem and parent.
-/

/-- Split a character list on the slash character, keeping empty segments. -/
def splitSlash : List Char → List (List Char)
  | [] => [[]]
  | c :: rest =>
    let r := splitSlash rest
    if c == '/' then [] :: r
    else match r with
      | h :: t => (c :: h) :: t
      | [] => [[c]]

/-- The components of a POSIX path: slash-separated pieces with empty and
single-dot pieces dropped; double-dot pieces are kept (pathlib does not
resolve them). -/
def pathParts (s : String) : List String :=
  ((splitSlash s.toList).filter (fun c => !(c == []) && !(c == ['.']))).map
    (fun c => String.mk c)

/-- Whether the path string is absolute (starts with a slash). -/
def isAbsPath (s : String) : Bool :=
  match s.toList with
  | c :: _ => c == '/'
  | [] => false

/-- PurePosixPath(s).name : the final component, or the empty string when
there is none (empty path, single dot, bare root). -/
def pathName (s : String) : String :=
  match (pathParts s).getLast? with
  | some n => n
  | none => ""

/-- The index of the last dot in a character list, if any. -/
def lastDotIdx (l : List Char) : Option Nat :=
  ((List.range l.length).filter (fun i => l.get? i == some '.')).getLast?

/-- PurePosixPath(s).stem : the final component without its suffix; the
suffix starts at the last dot provided that dot is neither the first nor the
last character of the component. -/
def pathStem (s : String) : String :=
  let n := (pathName s).toList
  match lastDotIdx n with
  | some i => if 0 < i ∧ i + 1 < n.length then String.mk (n.take i) else String.mk n
  | none => String.mk n

/-- Join a nonempty list of components with slashes. -/
def joinSlash : List String → String
  | [] => ""
  | [x] => x
  | x :: rest => x ++ "/" ++ joinSlash rest

/-- str(PurePosixPath(s).parent) : drop the final component; the parent of a
component-free path is the root for absolute paths and the single dot
otherwise. -/
def parentPath (s : String) : String :=
  let ps := pathParts s
  match ps with
  | [] => if isAbsPath s then "/" else "."
  | _ =>
    let pp := ps.dropLast
    if isAbsPath s then "/" ++ joinSlash pp
    else match pp with
      | [] => "."
      | _ => joinSlash pp

/-- The chain of normalized ancestor paths created by
Path(d).mkdir(parents=True): every prefix of the component list of d,
rendered back to a path string (the result is empty for the root or the
current directory, which always exist). -/
def dirChain (s : String) : List String :=
  let ps := pathParts s
  (List.range ps.length).map (fun i =>
    let pre := ps.take (i + 1)
    if isAbsPath s then "/" ++ joinSlash pre else joinSlash pre)

/-! ### Filesystem state -/

/-- The render context passed to the template engine: an opaque mapping from
string keys to string values (no claim inspects its structure). -/
abbrev Ctx := List (String × String)

/-- The parsed content of an on-disk JSON configuration file, as consumed by
the render-template route: the route reads the fields template, context,
output_path and output with dict.get. -/
structure ConfigJson where
  template : Option String
  contextIsDict : Bool
  context : Ctx
  output : Option String
  outputPathField : Option String
deriving DecidableEq

/-- Content stored at a file path: UTF-8 text (templates), raw bytes
(generated PDFs), or a JSON document already in parsed form. -/
inductive FileData
  | text (s : String)
  | bin (b : List Nat)
  | jsonConfig (j : ConfigJson)
deriving DecidableEq

/-- A snapshot of the filesystem: an association list of regular files and a
list of directories. -/
structure FS where
  files : List (String × FileData)
  dirs : List String
deriving DecidableEq

def FS.lookupFile (fs : FS) (p : String) : Option FileData :=
  (fs.files.find? (fun e => e.1 == p)).map (fun e => e.2)

/-- Path(p).exists() : true when p is a regular file or a directory. -/
def FS.existsPath (fs : FS) (p : String) : Bool :=
  (fs.lookupFile p).isSome || fs.dirs.contains p

/-- open(p).read() on a path already known to exist: succeeds on text files;
reading a binary file as UTF-8 or opening a directory raises (the error text
of those branches is abridged, no claim depends on it). -/
def FS.readText (fs : FS) (p : String) : Except String String :=
  match fs.lookupFile p with
  | some (.text s) => .ok s
  | some _ => .error ("UnicodeDecodeError: cannot decode file " ++ p)
  | none => .error ("IsADirectoryError: " ++ p)

/-- Path(d).mkdir(parents=True, exist_ok=True) : creates every missing
ancestor directory and d itself, succeeding silently for the ones that
already exist as directories; raises when a regular file occupies any of the
needed paths. -/
def FS.mkdirParents (fs : FS) (d : String) : Except String FS :=
  let chain := dirChain d
  if chain.any (fun q => (fs.lookupFile q).isSome) then
    .error ("FileExistsError: " ++ d)
  else
    .ok { fs with dirs := fs.dirs ++ chain.filter (fun q => !(fs.dirs.contains q)) }

/-- Whether a path string ends with a slash (opening such a path for writing
fails on POSIX). -/
def endsWithSlash (p : String) : Bool :=
  match p.toList.getLast? with
  | some c => c == '/'
  | none => false

/-- open(p, wb).write(b) : truncates and rewrites the file at p in full;
raises when p is a directory or is spelled with a trailing slash. -/
def FS.writeBin (fs : FS) (p : String) (b : List Nat) : Except String FS :=
  if fs.dirs.contains p || endsWithSlash p then
    .error ("IsADirectoryError: " ++ p)
  else
    .ok { fs with files := (p, .bin b) :: fs.files.filter (fun e => !(e.1 == p)) }

/-! ### GeneratePdfService (services/generate_pdf_service.py) -/

/-- The two external library calls of the pipeline, abstracted: the Jinja2
render of the template text under a context, and the WeasyPrint conversion
of the rendered HTML (with its base url) to PDF bytes. Either call may raise,
modelled as an error message. -/
structure Engine where
  render : String → Ctx → Except String String
  htmlToPdf : String → String → Except String (List Nat)

/-- The two exception classes that escape GeneratePdfService.generate_pdf:
FileNotFoundError, re-raised untouched, and RuntimeError wrapping every other
fault. -/
inductive PdfError
  | fileNotFound (msg : String)
  | runtimeError (msg : String)
deriving DecidableEq

/-- The successful result of generate_pdf: PDF bytes when no output path was
given, the output path string otherwise. -/
inductive GenResult
  | bytes (b : List Nat)
  | path (p : String)
deriving DecidableEq

/-- Python truthiness of the optional output_path argument: None and the
empty string are falsy. -/
def truthyStr : Option String → Bool
  | none => false
  | some s => !(s == "")

/-- GeneratePdfService.generate_pdf. Validates the template name by the
final-path-component comparison, resolves it under the templates directory,
reads and renders it, converts to PDF, and either writes the bytes to
output_path (creating parent directories) or returns them. FileNotFoundError
passes through unwrapped; every other fault is wrapped into RuntimeError with
the message prefix from the source. The filesystem reached at the point of
failure is returned alongside the outcome. -/
def generate_pdf (eng : Engine) (templates_dir : String) (fs : FS)
    (template_name : String) (context : Ctx) (output_path : Option String) :
    Except PdfError GenResult × FS :=
  let safe_name := pathName template_name
  if safe_name ≠ template_name then
    (.error (.runtimeError "Error al generar PDF: Nombre de template inválido"), fs)
  else
    let template_path := templates_dir ++ "/" ++ safe_name
    if !(fs.existsPath template_path) then
      (.error (.fileNotFound ("Template no encontrado: " ++ template_name)), fs)
    else
      match fs.readText template_path with
      | .error e => (.error (.runtimeError ("Error al generar PDF: " ++ e)), fs)
      | .ok template_content =>
        match eng.render template_content context with
        | .error e => (.error (.runtimeError ("Error al generar PDF: " ++ e)), fs)
        | .ok rendered_html =>
          match eng.htmlToPdf rendered_html (parentPath template_path) with
          | .error e => (.error (.runtimeError ("Error al generar PDF: " ++ e)), fs)
          | .ok pdf_bytes =>
            if truthyStr output_path then
              let p := output_path.getD ""
              match fs.mkdirParents (parentPath p) with
              | .error e => (.error (.runtimeError ("Error al generar PDF: " ++ e)), fs)
              | .ok fs1 =>
                match fs1.writeBin p pdf_bytes with
                | .error e => (.error (.runtimeError ("Error al generar PDF: " ++ e)), fs1)
                | .ok fs2 => (.ok (.path p), fs2)
            else
              (.ok (.bytes pdf_bytes), fs)

/-! ### The HTTP boundary (app.py) -/

/-- The observable response of a route: a JSON error body with its status, a
JSON success envelope (status 200), a binary download attachment, or a raw
HTML body. -/
inductive Resp
  | jsonErr (status : Nat) (msg : String)
  | jsonSuccess (message p : String)
  | attachment (downloadName : String) (content : List Nat)
  | raw (body : String)
deriving DecidableEq

/-- The download filename built by the generate-pdf route for the attachment
branch: the stem of the caller-supplied template name with the pdf
extension. -/
def download_name (template : String) : String :=
  pathStem template ++ ".pdf"

/-- The request shape seen by the generate-pdf route: content type flag,
truthiness of the parsed JSON body, and the three body fields. A context
field that is present but not a JSON object is modelled by contextIsDict set
to false (an absent field defaults to the empty dict, which is a dict). -/
structure PdfRequest where
  isJsonContentType : Bool
  hasBody : Bool
  template : Option String
  contextIsDict : Bool
  context : Ctx
  output : Option String

/-- POST /api/generate-pdf (app.py, generate_pdf_endpoint). Note two traits
taken directly from the source: the output field is concatenated onto the
output root BEFORE the template checks, and a missing output field makes that
concatenation raise TypeError, answered by the generic handler with status
500; the template name passed to the service has the j2 suffix appended. -/
def generate_pdf_endpoint (eng : Engine) (templates_dir : String) (fs : FS)
    (req : PdfRequest) : Resp × FS :=
  if !req.isJsonContentType then
    (.jsonErr 415 "Content-Type debe ser application/json", fs)
  else if !req.hasBody then
    (.jsonErr 400 "JSON requerido", fs)
  else
    match req.output with
    | none =>
      (.jsonErr 500 "Error inesperado: can only concatenate str (not \x22NoneType\x22) to str", fs)
    | some out =>
      let output_path := "/app/output/" ++ out
      match req.template with
      | none => (.jsonErr 400 "Campo \x27template\x27 requerido", fs)
      | some template =>
        if template == "" then
          (.jsonErr 400 "Campo \x27template\x27 requerido", fs)
        else if !req.contextIsDict then
          (.jsonErr 400 "Campo \x27context\x27 debe ser un objeto JSON", fs)
        else
          match generate_pdf eng templates_dir fs (template ++ ".j2") req.context
              (some output_path) with
          | (.error (.fileNotFound m), fs1) => (.jsonErr 404 m, fs1)
          | (.error (.runtimeError m), fs1) => (.jsonErr 500 m, fs1)
          | (.ok r, fs1) =>
            if output_path ≠ "" then
              match r with
              | .path p => (.jsonSuccess "PDF generado exitosamente" p, fs1)
              | .bytes _ =>
                -- unreachable: a truthy output path makes the service return a path
                (.jsonSuccess "PDF generado exitosamente" "", fs1)
            else
              match r with
              | .bytes b => (.attachment (download_name template) b, fs1)
              | .path _ =>
                -- unreachable: without a truthy output path the service returns bytes
                (.attachment (download_name template) [], fs1)

/-- The attribute lookup pdf_service.render_template performed by the
render-template route. The class body of GeneratePdfService declares exactly
two methods, an initializer and generate_pdf, so the lookup fails with
AttributeError; the value such a method would have had, were it present, is
absent. -/
def render_template_attr : Option (Engine → String → Ctx → Except String String) :=
  none

/-- The request shape seen by the render-template route: the optional config
query parameter. -/
structure RenderRequest where
  configParam : Option String

/-- GET /api/render-template (app.py, render_template_endpoint). Validates
the JSON config filename, loads the config, validates its fields, and then
evaluates pdf_service.render_template, an attribute the service class does
not define, so every request that reaches the call is answered with the
AttributeError text under status 500. The branches for a config file that is
not valid JSON carry abridged error text (no claim depends on it). -/
def render_template_endpoint (eng : Engine) (app_dir : String) (fs : FS)
    (req : RenderRequest) : Resp :=
  let config_name := match req.configParam with
    | none => "render_config.json"
    | some s => s
  if config_name == "" then
    .jsonErr 400 "Nombre de archivo JSON requerido"
  else
    let safe_name := pathName config_name
    if safe_name ≠ config_name then
      .jsonErr 400 "Nombre de archivo JSON inválido"
    else
      let json_path := app_dir ++ "/" ++ safe_name
      if !(fs.existsPath json_path) then
        .jsonErr 404 ("Archivo JSON no encontrado: " ++ config_name)
      else
        match fs.lookupFile json_path with
        | some (.jsonConfig data) =>
          match data.template with
          | none => .jsonErr 400 "Campo \x27template\x27 requerido en el archivo JSON"
          | some template =>
            if template == "" then
              .jsonErr 400 "Campo \x27template\x27 requerido en el archivo JSON"
            else if !data.contextIsDict then
              .jsonErr 400 "Campo \x27context\x27 debe ser un objeto JSON"
            else
              match render_template_attr with
              | none =>
                .jsonErr 500
                  "Error inesperado: \x27GeneratePdfService\x27 object has no attribute \x27render_template\x27"
              | some f =>
                -- dead branch: the method is absent; shown for the intended data flow
                match f eng (template ++ ".j2") data.context with
                | .ok rendered_html => .raw rendered_html
                | .error e => .jsonErr 500 ("Error inesperado: " ++ e)
        | some _ => .jsonErr 500 "Error inesperado: JSONDecodeError"
        | none => .jsonErr 500 "Error inesperado: IsADirectoryError"

/-! ### Basic-Auth middleware (services/auth_middleware.py)

Header values reaching the hook are latin-1 text (the WSGI layer decodes
them so), which keeps the character-level model of str.lower and str.split
below exact.
-/

/-- Python str.isspace for the latin-1 range: tab through carriage return,
the four information separators, space, next line and no-break space. -/
def isPySpace (c : Char) : Bool :=
  let n := c.toNat
  (9 ≤ n && n ≤ 13) || (28 ≤ n && n ≤ 31) || n == 32 || n == 133 || n == 160

/-- ASCII lowercasing of one character; on latin-1 text this agrees with
Python str.lower wherever the result is compared against ASCII letters. -/
def lowerAsciiChar (c : Char) : Char :=
  if 65 ≤ c.toNat ∧ c.toNat ≤ 90 then Char.ofNat (c.toNat + 32) else c

/-- auth.lower().startswith of the basic-plus-space prefix. -/
def startsWithBasicSpace (s : String) : Bool :=
  (s.toList.take 6).map lowerAsciiChar == "basic ".toList

/-- auth.split(None, 1) indexed at 1 : skip leading whitespace, skip the
first whitespace-free token, skip the separating whitespace, and return the
remainder verbatim; none when no remainder exists (the IndexError case). -/
def splitRestAfterFirstToken (s : String) : Option String :=
  let l1 := s.toList.dropWhile (fun c => isPySpace c)
  let l2 := l1.dropWhile (fun c => !(isPySpace c))
  let l3 := l2.dropWhile (fun c => isPySpace c)
  match l3 with
  | [] => none
  | _ => some (String.mk l3)

/-- The value of one character of the standard base64 alphabet. -/
def b64Val (c : Char) : Option Nat :=
  let n := c.toNat
  if 65 ≤ n ∧ n ≤ 90 then some (n - 65)
  else if 97 ≤ n ∧ n ≤ 122 then some (n - 97 + 26)
  else if 48 ≤ n ∧ n ≤ 57 then some (n - 48 + 52)
  else if n == 43 then some 62
  else if n == 47 then some 63
  else none

/-- Reassemble base64 six-bit values into bytes: full quads give three bytes,
a trailing pair gives one byte, a trailing triple gives two (excess low bits
are dropped, as the non-strict binascii decoder does). -/
def b64Quads : List Nat → List Nat
  | a :: b :: c :: d :: rest =>
    (a * 4 + b / 16) :: ((b % 16) * 16 + c / 4) :: ((c % 4) * 64 + d) :: b64Quads rest
  | [a, b] => [a * 4 + b / 16]
  | [a, b, c] => [a * 4 + b / 16, (b % 16) * 16 + c / 4]
  | _ => []

/-- base64.b64decode(s, validate=True) on a str argument, Python 3.11
semantics: the argument must be ASCII; it must consist of alphabet
characters followed by at most two padding signs; with n data characters and
p padding signs the input is accepted when n is a positive multiple of four
(any p), or n and p are both zero, or n mod 4 is 2 with p exactly 2, or
n mod 4 is 3 with p exactly 1. -/
def b64decodeValidate (s : String) : Option (List Nat) :=
  let l := s.toList
  if l.any (fun c => 128 ≤ c.toNat) then none
  else
    let dataChars := l.takeWhile (fun c => !(c == '='))
    let padChars := l.drop dataChars.length
    if !(padChars.all (fun c => c == '=')) then none
    else if 2 < padChars.length then none
    else
      match dataChars.mapM b64Val with
      | none => none
      | some vals =>
        let n := dataChars.length
        let p := padChars.length
        if (n % 4 == 0 && (p == 0 || n != 0)) ||
           (n % 4 == 2 && p == 2) || (n % 4 == 3 && p == 1) then
          some (b64Quads vals)
        else none

/-- Whether a byte is a UTF-8 continuation byte. -/
def isContByte (b : Nat) : Bool := 128 ≤ b && b ≤ 191

/-- bytes.decode(utf-8), strict: rejects truncated sequences, stray
continuation bytes, overlong encodings, surrogate code points and code
points above the Unicode range; yields the code points. -/
def utf8Decode : List Nat → Option (List Nat)
  | [] => some []
  | b :: rest =>
    if b < 128 then (utf8Decode rest).map (fun t => b :: t)
    else if 194 ≤ b && b ≤ 223 then
      match rest with
      | b2 :: rest2 =>
        if isContByte b2 then
          (utf8Decode rest2).map (fun t => ((b - 192) * 64 + (b2 - 128)) :: t)
        else none
      | [] => none
    else if b == 224 then
      match rest with
      | b2 :: b3 :: rest3 =>
        if (160 ≤ b2 && b2 ≤ 191) && isContByte b3 then
          (utf8Decode rest3).map (fun t =>
            ((b - 224) * 4096 + (b2 - 128) * 64 + (b3 - 128)) :: t)
        else none
      | _ => none
    else if (225 ≤ b && b ≤ 236) || b == 238 || b == 239 then
      match rest with
      | b2 :: b3 :: rest3 =>
        if isContByte b2 && isContByte b3 then
          (utf8Decode rest3).map (fun t =>
            ((b - 224) * 4096 + (b2 - 128) * 64 + (b3 - 128)) :: t)
        else none
      | _ => none
    else if b == 237 then
      match rest with
      | b2 :: b3 :: rest3 =>
        if (128 ≤ b2 && b2 ≤ 159) && isContByte b3 then
          (utf8Decode rest3).map (fun t =>
            ((b - 224) * 4096 + (b2 - 128) * 64 + (b3 - 128)) :: t)
        else none
      | _ => none
    else if b == 240 then
      match rest with
      | b2 :: b3 :: b4 :: rest4 =>
        if (144 ≤ b2 && b2 ≤ 191) && isContByte b3 && isContByte b4 then
          (utf8Decode rest4).map (fun t =>
            ((b - 240) * 262144 + (b2 - 128) * 4096 + (b3 - 128) * 64 + (b4 - 128)) :: t)
        else none
      | _ => none
    else if 241 ≤ b && b ≤ 243 then
      match rest with
      | b2 :: b3 :: b4 :: rest4 =>
        if isContByte b2 && isContByte b3 && isContByte b4 then
          (utf8Decode rest4).map (fun t =>
            ((b - 240) * 262144 + (b2 - 128) * 4096 + (b3 - 128) * 64 + (b4 - 128)) :: t)
        else none
      | _ => none
    else if b == 244 then
      match rest with
      | b2 :: b3 :: b4 :: rest4 =>
        if (128 ≤ b2 && b2 ≤ 143) && isContByte b3 && isContByte b4 then
          (utf8Decode rest4).map (fun t =>
            ((b - 240) * 262144 + (b2 - 128) * 4096 + (b3 - 128) * 64 + (b4 - 128)) :: t)
        else none
      | _ => none
    else none

/-- The outcome of hmac.compare_digest on two str arguments: a boolean when
both are ASCII, TypeError otherwise. -/
inductive CmpResult
  | ok (b : Bool)
  | typeError
deriving DecidableEq

/-- hmac.compare_digest on str arguments (as lists of code points): raises
TypeError when either side contains a non-ASCII character, otherwise
compares for equality (the constant-time aspect has no functional
content). -/
def compare_digest (a b : List Nat) : CmpResult :=
  if a.any (fun x => 128 ≤ x) || b.any (fun x => 128 ≤ x) then .typeError
  else .ok (a == b)

/-- decoded.split(colon, 1) unpacked into two parts: none when the text has
no colon (the ValueError case), otherwise the text before the first colon
and everything after it. -/
def splitColon1 (l : List Nat) : Option (List Nat × List Nat) :=
  let pre := l.takeWhile (fun c => !(c == 58))
  match l.drop pre.length with
  | [] => none
  | _ :: t => some (pre, t)

/-- An HTTP response as produced directly by the middleware. -/
structure HttpResp where
  status : Nat
  wwwAuthenticate : Option String
  body : String
deriving DecidableEq

/-- The 401 challenge response built by _unauthorized_response. -/
def unauthorized_response : HttpResp :=
  { status := 401
    wwwAuthenticate := some "Basic realm=\x22Login Required\x22"
    body := "Unauthorized" }

/-- The outcome of the before-request hook: fall through to the route, answer
with a response, or let an exception escape (which the framework turns into
a 500 error page). -/
inductive AuthResult
  | pass
  | resp (r : HttpResp)
  | raised (msg : String)
deriving DecidableEq

/-- Model of _check_basic_auth (services/auth_middleware.py): OPTIONS requests and
exempt paths fall through; then the Authorization header is required to
carry the basic scheme, a token that decodes under validated base64 into
UTF-8 text with a colon, and the two parts must equal the configured user
and password under compare_digest (evaluated left to right with Python
short-circuit); any failure inside the parsing try-block yields the 401
challenge, while a TypeError from compare_digest escapes the hook. -/
def check_basic_auth (exempt_paths : List String) (user pwd : List Nat)
    (method path : String) (authHeader : Option String) : AuthResult :=
  if method == "OPTIONS" then .pass
  else if exempt_paths.contains path then .pass
  else
    match authHeader with
    | none => .resp unauthorized_response
    | some auth =>
      if !(startsWithBasicSpace auth) then .resp unauthorized_response
      else
        match splitRestAfterFirstToken auth with
        | none => .resp unauthorized_response
        | some token =>
          match b64decodeValidate token with
          | none => .resp unauthorized_response
          | some decodedBytes =>
            match utf8Decode decodedBytes with
            | none => .resp unauthorized_response
            | some decoded =>
              match splitColon1 decoded with
              | none => .resp unauthorized_response
              | some (incoming_user, incoming_pwd) =>
                match compare_digest incoming_user user with
                | .typeError =>
                  .raised "TypeError: comparing strings with non-ASCII characters is not supported"
                | .ok false => .resp unauthorized_response
                | .ok true =>
                  match compare_digest incoming_pwd pwd with
                  | .typeError =>
                    .raised "TypeError: comparing strings with non-ASCII characters is not supported"
                  | .ok false => .resp unauthorized_response
                  | .ok true => .pass

instance {ε α : Type} [DecidableEq ε] [DecidableEq α] : DecidableEq (Except ε α) := fun a b =>
  match a, b with
  | .error x, .error y =>
    if h : x = y then isTrue (h ▸ rfl) else isFalse (fun hc => h (Except.error.inj hc))
  | .ok x, .ok y =>
    if h : x = y then isTrue (h ▸ rfl) else isFalse (fun hc => h (Except.ok.inj hc))
  | .error _, .ok _ => isFalse (fun hc => Except.noConfusion hc)
  | .ok _, .error _ => isFalse (fun hc => Except.noConfusion hc)

/-- The exemption list passed to register_basic_auth in app.py. -/
def app_exempt_paths : List String := ["/health", "/favicon.ico"]

/-- The JSON body returned by the GET /api/health route handler. -/
def health_check_body : List (String × String) :=
  [("status", "healthy"), ("service", "pdf-generator")]

/-! ### Concrete fixtures for witnesses and counterexamples -/

/-- An engine whose render echoes the template text and whose conversion
returns the four PDF magic bytes. -/
def engOk : Engine :=
  { render := fun s _ => .ok s
    htmlToPdf := fun _ _ => .ok [37, 80, 68, 70] }

/-- An engine whose render step always raises. -/
def engRenderFail : Engine :=
  { render := fun _ _ => .error "boom"
    htmlToPdf := fun _ _ => .ok [37, 80, 68, 70] }

/-- A filesystem holding one template file under the templates root. -/
def fsDemo : FS :=
  { files := [("/app/templates/empresa.html.j2", .text "<h1>Hola</h1>")]
    dirs := ["/app", "/app/templates"] }

/-- The code points of the demo configured user, admin. -/
def userDemo : List Nat := [97, 100, 109, 105, 110]

/-- The code points of the demo configured password, secret. -/
def pwdDemo : List Nat := [115, 101, 99, 114, 101, 116]

/-- A parsed render config naming an existing template. -/
def cfgDemo : ConfigJson :=
  { template := some "empresa.html", contextIsDict := true, context := []
    output := none, outputPathField := none }

/-- A filesystem holding a valid render config and its template. -/
def fsRender : FS :=
  { files := [("/app/render_config.json", .jsonConfig cfgDemo),
              ("/app/templates/empresa.html.j2", .text "<h1>Hola</h1>")]
    dirs := ["/app", "/app/templates"] }

/-- A filesystem where the output directories already exist and a stale file
already occupies the output target, for exhibiting the overwrite. -/
def fsPrior : FS :=
  { files := [("/app/templates/empresa.html.j2", .text "<h1>Hola</h1>"),
              ("/app/output/a/b.pdf", .bin [0])]
    dirs := ["/app", "/app/templates", "/app/output", "/app/output/a"] }

/-- A filesystem holding the caller-spelled template name without the j2
suffix. -/
def fsNoSuffix : FS :=
  { files := [("/app/templates/empresa.html", .text "<h1>Hola</h1>")]
    dirs := ["/app", "/app/templates"] }

/-- The status code of a boundary response. -/
def respStatus : Resp → Nat
  | .jsonErr s _ => s
  | .jsonSuccess _ _ => 200
  | .attachment _ _ => 200
  | .raw _ => 200

/-- Whether a status code is in the client-error class. -/
def isClientErrorStatus (s : Nat) : Bool := (400 ≤ s) && (s < 500)

/-! ### Claims -/

/-- C1, counterexample. A template name with a directory segment, sent to the
generate-pdf route, is answered with status 500: a server error, not the
client error the claim asserts. The ValueError raised by the name check is
wrapped into RuntimeError by the service and mapped to 500 at the
boundary. -/
theorem C1_counterexample :
    (generate_pdf_endpoint engOk "/app/templates" fsDemo
        ⟨true, true, some "a/b", true, [], some "x.pdf"⟩).1
      = .jsonErr 500 "Error al generar PDF: Nombre de template inválido"
  ∧ isClientErrorStatus (respStatus
      (generate_pdf_endpoint engOk "/app/templates" fsDemo
        ⟨true, true, some "a/b", true, [], some "x.pdf"⟩).1) = false := by
  decide

/-- C1, amended. For every template name whose final path component differs
from the name itself, the service fails with the invalid-name error wrapped
into RuntimeError, and the boundary answers with HTTP 500 (a server error,
not a client error); the outcome is the same for every filesystem and every
engine, so no file under or outside the templates root is read, and the
filesystem is returned unchanged. -/
theorem C1_invalid_name :
    (∀ (eng : Engine) (templates_dir : String) (fs : FS) (name : String)
        (ctx : Ctx) (out : Option String), pathName name ≠ name →
      generate_pdf eng templates_dir fs name ctx out
        = (.error (.runtimeError "Error al generar PDF: Nombre de template inválido"), fs))
  ∧ (∀ (eng : Engine) (templates_dir : String) (fs : FS) (t : String)
        (ctx : Ctx) (out : String), pathName (t ++ ".j2") ≠ t ++ ".j2" → t ≠ "" →
      generate_pdf_endpoint eng templates_dir fs
          ⟨true, true, some t, true, ctx, some out⟩
        = (.jsonErr 500 "Error al generar PDF: Nombre de template inválido", fs)) := by
  constructor
  · intro eng templates_dir fs name ctx out h
    simp [generate_pdf, h]
  · intro eng templates_dir fs t ctx out h hne
    simp [generate_pdf_endpoint, generate_pdf, h, hne]

/-- C1, witness for the amended theorem at the concrete name a/b. -/
theorem C1_invalid_name_witness :
    generate_pdf engOk "/app/templates" fsDemo "a/b" [] none
      = (.error (.runtimeError "Error al generar PDF: Nombre de template inválido"), fsDemo)
  ∧ generate_pdf_endpoint engOk "/app/templates" fsDemo
        ⟨true, true, some "a/b", true, [], some "x.pdf"⟩
      = (.jsonErr 500 "Error al generar PDF: Nombre de template inválido", fsDemo) :=
  ⟨C1_invalid_name.1 engOk "/app/templates" fsDemo "a/b" [] none (by decide),
   C1_invalid_name.2 engOk "/app/templates" fsDemo "a/b" [] "x.pdf" (by decide) (by decide)⟩

/-- C2. A separator-free template name with no matching file makes the
service fail with FileNotFoundError carrying the not-found message unwrapped
(the fileNotFound constructor, not the RuntimeError wrap), leaving the
filesystem unchanged; at the boundary, a request whose suffixed template
name has no matching file is answered with HTTP 404 and a JSON body whose
error key carries that message. -/
theorem C2_template_not_found :
    (∀ (eng : Engine) (dir : String) (fs : FS) (name : String) (ctx : Ctx)
        (out : Option String), pathName name = name →
        fs.existsPath (dir ++ "/" ++ name) = false →
      generate_pdf eng dir fs name ctx out
        = (.error (.fileNotFound ("Template no encontrado: " ++ name)), fs))
  ∧ (∀ (eng : Engine) (dir : String) (fs : FS) (t : String) (ctx : Ctx)
        (out : String), t ≠ "" →
        pathName (t ++ ".j2") = t ++ ".j2" →
        fs.existsPath (dir ++ "/" ++ (t ++ ".j2")) = false →
      generate_pdf_endpoint eng dir fs ⟨true, true, some t, true, ctx, some out⟩
        = (.jsonErr 404 ("Template no encontrado: " ++ (t ++ ".j2")), fs)) := by
  constructor
  · intro eng dir fs name ctx out h1 h2
    simp [generate_pdf, h1, h2]
  · intro eng dir fs t ctx out hne h1 h2
    simp [generate_pdf_endpoint, generate_pdf, hne, h1, h2]

/-- C2, witness at the concrete missing template name. -/
theorem C2_template_not_found_witness :
    generate_pdf engOk "/app/templates" fsDemo "missing.j2" [] none
      = (.error (.fileNotFound "Template no encontrado: missing.j2"), fsDemo)
  ∧ generate_pdf_endpoint engOk "/app/templates" fsDemo
        ⟨true, true, some "missing", true, [], some "x.pdf"⟩
      = (.jsonErr 404 "Template no encontrado: missing.j2", fsDemo) :=
  ⟨C2_template_not_found.1 engOk "/app/templates" fsDemo "missing.j2" [] none
      (by decide) (by decide),
   C2_template_not_found.2 engOk "/app/templates" fsDemo "missing" [] "x.pdf"
      (by decide) (by decide) (by decide)⟩

/-- C4, code bug. With a valid existing template and no output field in the
body, the route does not answer with the PDF attachment its own docstring
promises: the expression concatenating the output root with the absent
field raises TypeError before the service is ever invoked, and the generic
handler answers with HTTP 500. The first conjunct shows the template does
exist, so the failure is solely about the missing output field. -/
theorem C4_missing_output_bug :
    fsDemo.existsPath ("/app/templates" ++ "/" ++ ("empresa.html" ++ ".j2")) = true
  ∧ (generate_pdf_endpoint engOk "/app/templates" fsDemo
        ⟨true, true, some "empresa.html", true, [], none⟩).1
      = .jsonErr 500 "Error inesperado: can only concatenate str (not \x22NoneType\x22) to str" := by
  decide

/-- C5, code bug. A request naming a valid, existing JSON config whose
template field resolves to an existing template is never answered with the
rendered markup: the attribute lookup of render_template on the service
fails (the class defines no such method), so the route answers HTTP 500
with the AttributeError text, for every engine, so the renderer is never
invoked. -/
theorem C5_render_template_bug :
    ∀ (eng : Engine),
      render_template_endpoint eng "/app" fsRender ⟨some "render_config.json"⟩
        = .jsonErr 500
            "Error inesperado: \x27GeneratePdfService\x27 object has no attribute \x27render_template\x27" := by
  intro eng
  rfl

/-- C9, code bug. The health route path /api/health is not in the exemption
set registered in app.py (which lists /health and /favicon.ico), so a GET
/api/health request without an Authorization header is answered by the
middleware with the 401 challenge, for every configured credential pair,
never reaching the handler that returns the healthy body. -/
theorem C9_health_gated :
    (∀ (user pwd : List Nat),
      check_basic_auth app_exempt_paths user pwd "GET" "/api/health" none
        = .resp unauthorized_response)
  ∧ app_exempt_paths.contains "/api/health" = false := by
  exact ⟨fun user pwd => rfl, by decide⟩

/-- Helper: recursive directory creation succeeds when no regular file
occupies a path in the chain, and appends exactly the missing chain
entries. -/
theorem mkdirParents_ok (fs : FS) (d : String)
    (h : ∀ q ∈ dirChain d, fs.lookupFile q = none) :
    fs.mkdirParents d
      = .ok ⟨fs.files, fs.dirs ++ (dirChain d).filter (fun q => !(fs.dirs.contains q))⟩ := by
  have hg : ¬((((dirChain d).any fun q => (fs.lookupFile q).isSome)) = true) := by
    rw [Bool.not_eq_true, List.any_eq_false]
    intro q hq
    simp [h q hq]
  exact if_neg hg

/-- Helper: a file write succeeds when the target is not a directory and not
spelled with a trailing slash, and replaces any previous entry at the
path. -/
theorem writeBin_ok (fs : FS) (p : String) (b : List Nat)
    (h1 : fs.dirs.contains p = false) (h2 : endsWithSlash p = false) :
    fs.writeBin p b
      = .ok ⟨(p, .bin b) :: fs.files.filter (fun e => !(e.1 == p)), fs.dirs⟩ := by
  have hg : ¬((fs.dirs.contains p || endsWithSlash p) = true) := by
    rw [h1, h2]
    exact Bool.false_ne_true
  exact if_neg hg

/-- C3. When an output target is present, the pipeline creates the chain of
parent directories of the target (each becomes present in the resulting
filesystem), writes the full PDF byte content at the target path regardless
of what was there before, returns the target path string, and the directory
creation on the resulting state succeeds silently without changing anything
(idempotence of the recursive, exist-ok creation). -/
theorem C3_output_target (eng : Engine) (dir : String) (fs : FS)
    (name content html : String) (ctx : Ctx) (pdf : List Nat) (p : String)
    (hname : pathName name = name)
    (hread : fs.lookupFile (dir ++ "/" ++ name) = some (.text content))
    (hrender : eng.render content ctx = .ok html)
    (hconv : eng.htmlToPdf html (parentPath (dir ++ "/" ++ name)) = .ok pdf)
    (hp : p ≠ "")
    (hchain : ∀ q ∈ dirChain (parentPath p), fs.lookupFile q = none)
    (hpdir : p ∉ fs.dirs)
    (hpchain : p ∉ dirChain (parentPath p))
    (hslash : endsWithSlash p = false) :
    ∃ fs2 : FS,
      generate_pdf eng dir fs name ctx (some p) = (.ok (.path p), fs2)
      ∧ fs2.lookupFile p = some (.bin pdf)
      ∧ (∀ q ∈ dirChain (parentPath p), q ∈ fs2.dirs)
      ∧ fs2.mkdirParents (parentPath p) = .ok fs2 := by
  refine ⟨⟨(p, .bin pdf) :: fs.files.filter (fun e => !(e.1 == p)),
      fs.dirs ++ (dirChain (parentPath p)).filter (fun q => !(fs.dirs.contains q))⟩,
    ?_, ?_, ?_, ?_⟩
  · -- the run itself
    have hmk := mkdirParents_ok fs (parentPath p) hchain
    have hpnotin1 :
        (fs.dirs ++ (dirChain (parentPath p)).filter
            (fun q => !(fs.dirs.contains q))).contains p = false := by
      simp only [List.contains, List.elem_eq_mem, decide_eq_false_iff_not,
        List.mem_append, List.mem_filter]
      rintro (h | ⟨h, _⟩)
      · exact hpdir h
      · exact hpchain h
    have hwr := writeBin_ok
      ⟨fs.files, fs.dirs ++ (dirChain (parentPath p)).filter (fun q => !(fs.dirs.contains q))⟩
      p pdf hpnotin1 hslash
    have hex : fs.existsPath (dir ++ "/" ++ name) = true := by
      simp [FS.existsPath, hread]
    have hrd : fs.readText (dir ++ "/" ++ name) = .ok content := by
      simp [FS.readText, hread]
    simp at hwr
    simp [generate_pdf, hname, hex, hrd, hrender, hconv, truthyStr, hp, hmk, hwr]
  · -- the bytes are at the target path
    simp [FS.lookupFile, List.find?]
  · -- the parent chain is present
    intro q hq
    simp only [List.mem_append, List.mem_filter]
    by_cases hcase : q ∈ fs.dirs
    · exact Or.inl hcase
    · refine Or.inr ⟨hq, ?_⟩
      simp [List.contains, List.elem_eq_mem, hcase]
  · -- creating the directories again succeeds and changes nothing
    have hnone_all : ∀ q ∈ dirChain (parentPath p),
        FS.lookupFile ⟨(p, .bin pdf) :: fs.files.filter (fun e => !(e.1 == p)),
          fs.dirs ++ (dirChain (parentPath p)).filter (fun q => !(fs.dirs.contains q))⟩ q
          = none := by
      intro q hq
      have hqp : (p == q) = false := by
        simp only [beq_eq_false_iff_ne]
        intro hpq
        exact hpchain (hpq ▸ hq)
      have hfind : List.find? (fun e => e.1 == q) fs.files = none := by
        have h0 := hchain q hq
        unfold FS.lookupFile at h0
        cases hfind2 : List.find? (fun e => e.1 == q) fs.files with
        | none => rfl
        | some e => rw [hfind2] at h0; simp at h0
      have hall := List.find?_eq_none.mp hfind
      unfold FS.lookupFile
      rw [List.find?_cons_of_neg _ (by simp only [hqp]; exact Bool.false_ne_true)]
      rw [Option.map_eq_none']
      rw [List.find?_eq_none]
      intro e he
      exact hall e (List.mem_filter.mp he).1
    rw [mkdirParents_ok _ _ hnone_all]
    have hfilter : (dirChain (parentPath p)).filter
        (fun q => !((fs.dirs ++ (dirChain (parentPath p)).filter
          (fun q => !(fs.dirs.contains q))).contains q)) = [] := by
      rw [List.filter_eq_nil_iff]
      intro q hq
      by_cases hcase : q ∈ fs.dirs
      · simp [List.contains, List.elem_eq_mem, hcase]
      · simp [List.contains, List.elem_eq_mem, hcase, hq]
    rw [hfilter, List.append_nil]

/-- C3, witness: writing the generated PDF at a target whose directories
already exist and where a stale file sits at the target path succeeds
silently, and afterwards the target holds the freshly generated bytes, not
the stale ones. -/
theorem C3_output_target_witness :
    ∃ fs2 : FS,
      generate_pdf engOk "/app/templates" fsPrior "empresa.html.j2" []
          (some "/app/output/a/b.pdf")
        = (.ok (.path "/app/output/a/b.pdf"), fs2)
      ∧ fs2.lookupFile "/app/output/a/b.pdf" = some (.bin [37, 80, 68, 70])
      ∧ (∀ q ∈ dirChain (parentPath "/app/output/a/b.pdf"), q ∈ fs2.dirs)
      ∧ fs2.mkdirParents (parentPath "/app/output/a/b.pdf") = .ok fs2 :=
  C3_output_target engOk "/app/templates" fsPrior "empresa.html.j2" "<h1>Hola</h1>"
    "<h1>Hola</h1>" [] [37, 80, 68, 70] "/app/output/a/b.pdf"
    (by decide) (by decide) (by decide) (by decide) (by decide)
    (by decide) (by decide) (by decide) (by decide)

/-- C6. Without a truthy output target the pipeline returns the PDF bytes
produced by the conversion engine and returns the filesystem exactly as it
was: no directory creation and no file write. -/
theorem C6_no_output_no_write (eng : Engine) (dir : String) (fs : FS)
    (name content html : String) (ctx : Ctx) (pdf : List Nat) (out : Option String)
    (hname : pathName name = name)
    (hread : fs.lookupFile (dir ++ "/" ++ name) = some (.text content))
    (hrender : eng.render content ctx = .ok html)
    (hconv : eng.htmlToPdf html (parentPath (dir ++ "/" ++ name)) = .ok pdf)
    (hout : truthyStr out = false) :
    generate_pdf eng dir fs name ctx out = (.ok (.bytes pdf), fs) := by
  have hex : fs.existsPath (dir ++ "/" ++ name) = true := by
    simp [FS.existsPath, hread]
  have hrd : fs.readText (dir ++ "/" ++ name) = .ok content := by
    simp [FS.readText, hread]
  simp [generate_pdf, hname, hex, hrd, hrender, hconv, hout]

/-- C6, witness at the demo template with no output target. -/
theorem C6_no_output_no_write_witness :
    generate_pdf engOk "/app/templates" fsDemo "empresa.html.j2" [] none
      = (.ok (.bytes [37, 80, 68, 70]), fsDemo) :=
  C6_no_output_no_write engOk "/app/templates" fsDemo "empresa.html.j2"
    "<h1>Hola</h1>" "<h1>Hola</h1>" [] [37, 80, 68, 70] none
    (by decide) (by decide) (by decide) (by decide) (by decide)

/-- C7. Every fault escaping generate_pdf other than the not-found case is
the RuntimeError wrap whose message extends the source prefix with the
underlying fault message; and the boundary answers any such wrapped error
with HTTP 500 carrying the message in the JSON error body. -/
theorem C7_fault_wrapped :
    (∀ (eng : Engine) (dir : String) (fs : FS) (name : String) (ctx : Ctx)
        (out : Option String) (m : String),
      (generate_pdf eng dir fs name ctx out).1 = .error (.runtimeError m) →
      ∃ u, m = "Error al generar PDF: " ++ u)
  ∧ (∀ (eng : Engine) (dir : String) (fs : FS) (t : String) (ctx : Ctx)
        (out m : String), t ≠ "" →
      (generate_pdf eng dir fs (t ++ ".j2") ctx (some ("/app/output/" ++ out))).1
        = .error (.runtimeError m) →
      (generate_pdf_endpoint eng dir fs ⟨true, true, some t, true, ctx, some out⟩).1
        = .jsonErr 500 m) := by
  constructor
  · intro eng dir fs name ctx out m h
    rcases hgp : generate_pdf eng dir fs name ctx out with ⟨r, fs1⟩
    rw [hgp] at h
    have hr : r = .error (.runtimeError m) := h
    subst hr
    unfold generate_pdf at hgp
    simp only [] at hgp
    repeat' split at hgp
    all_goals injection hgp with ha hb
    all_goals first
      | (injection ha with ha2; injection ha2 with ha3; exact ⟨_, ha3.symm⟩)
      | (injection ha with ha2; injection ha2)
      | injection ha
  · intro eng dir fs t ctx out m hne h
    rcases hgp : generate_pdf eng dir fs (t ++ ".j2") ctx (some ("/app/output/" ++ out))
      with ⟨r, fs1⟩
    rw [hgp] at h
    have hr : r = .error (.runtimeError m) := h
    subst hr
    simp [generate_pdf_endpoint, hne, hgp]

/-- C7, witness: a render fault is answered as a 500 whose message is the
wrap prefix followed by the underlying message. -/
theorem C7_fault_wrapped_witness :
    (∃ u, "Error al generar PDF: boom" = "Error al generar PDF: " ++ u)
  ∧ (generate_pdf_endpoint engRenderFail "/app/templates" fsDemo
        ⟨true, true, some "empresa.html", true, [], some "x.pdf"⟩).1
      = .jsonErr 500 "Error al generar PDF: boom" :=
  ⟨C7_fault_wrapped.1 engRenderFail "/app/templates" fsDemo "empresa.html.j2" []
      (some "/app/output/x.pdf") "Error al generar PDF: boom" (by decide),
   C7_fault_wrapped.2 engRenderFail "/app/templates" fsDemo "empresa.html" [] "x.pdf"
      "Error al generar PDF: boom" (by decide) (by decide)⟩

/-- C8, counterexample. A request carrying well-formed Basic credentials
that decode to text with a non-ASCII character (acute-accented e, colon,
letter a) and mismatch the configured ASCII credentials is not answered with
the 401 challenge the claim asserts: compare_digest raises TypeError, the
exception escapes the hook, and the framework answers with its 500 page. -/
theorem C8_counterexample :
    check_basic_auth app_exempt_paths userDemo pwdDemo "POST" "/api/generate-pdf"
        (some "Basic w6k6YQ==")
      = .raised "TypeError: comparing strings with non-ASCII characters is not supported"
  ∧ check_basic_auth app_exempt_paths userDemo pwdDemo "POST" "/api/generate-pdf"
        (some "Basic w6k6YQ==")
      ≠ .resp unauthorized_response := by
  decide

/-- C8, amended. For a non-OPTIONS request to a non-exempt path: a missing
Authorization header, a non-Basic scheme, a token that is not valid base64,
or decoded text without a colon each yield the 401 challenge response; when
the decoded text splits at the first colon into an ASCII user and password
pair mismatching the configured ASCII pair, the response is again the 401
challenge; and a pair equal to the configured ASCII credentials passes the
gate. (Non-ASCII text on either side instead raises TypeError, see the
counterexample.) -/
theorem C8_basic_auth_gate :
    (∀ (exempt : List String) (user pwd : List Nat) (method path : String),
        method ≠ "OPTIONS" → exempt.contains path = false →
      check_basic_auth exempt user pwd method path none = .resp unauthorized_response)
  ∧ (∀ (exempt : List String) (user pwd : List Nat) (method path auth : String),
        method ≠ "OPTIONS" → exempt.contains path = false →
        startsWithBasicSpace auth = false →
      check_basic_auth exempt user pwd method path (some auth) = .resp unauthorized_response)
  ∧ (∀ (exempt : List String) (user pwd : List Nat) (method path auth tok : String),
        method ≠ "OPTIONS" → exempt.contains path = false →
        startsWithBasicSpace auth = true →
        splitRestAfterFirstToken auth = some tok →
        b64decodeValidate tok = none →
      check_basic_auth exempt user pwd method path (some auth) = .resp unauthorized_response)
  ∧ (∀ (exempt : List String) (user pwd : List Nat) (method path auth tok : String)
        (bs cps : List Nat),
        method ≠ "OPTIONS" → exempt.contains path = false →
        startsWithBasicSpace auth = true →
        splitRestAfterFirstToken auth = some tok →
        b64decodeValidate tok = some bs →
        utf8Decode bs = some cps →
        splitColon1 cps = none →
      check_basic_auth exempt user pwd method path (some auth) = .resp unauthorized_response)
  ∧ (∀ (exempt : List String) (user pwd : List Nat) (method path auth tok : String)
        (bs cps iu ip : List Nat),
        method ≠ "OPTIONS" → exempt.contains path = false →
        startsWithBasicSpace auth = true →
        splitRestAfterFirstToken auth = some tok →
        b64decodeValidate tok = some bs →
        utf8Decode bs = some cps →
        splitColon1 cps = some (iu, ip) →
        iu.any (fun x => 128 ≤ x) = false → ip.any (fun x => 128 ≤ x) = false →
        user.any (fun x => 128 ≤ x) = false → pwd.any (fun x => 128 ≤ x) = false →
        (iu ≠ user ∨ ip ≠ pwd) →
      check_basic_auth exempt user pwd method path (some auth) = .resp unauthorized_response)
  ∧ (∀ (exempt : List String) (user pwd : List Nat) (method path auth tok : String)
        (bs cps : List Nat),
        method ≠ "OPTIONS" → exempt.contains path = false →
        startsWithBasicSpace auth = true →
        splitRestAfterFirstToken auth = some tok →
        b64decodeValidate tok = some bs →
        utf8Decode bs = some cps →
        splitColon1 cps = some (user, pwd) →
        user.any (fun x => 128 ≤ x) = false → pwd.any (fun x => 128 ≤ x) = false →
      check_basic_auth exempt user pwd method path (some auth) = .pass) := by
  refine ⟨?_, ?_, ?_, ?_, ?_, ?_⟩
  · intro exempt user pwd method path hm hex
    simp [check_basic_auth, hm, hex]
    simpa using hex
  · intro exempt user pwd method path auth hm hex hscheme
    simp [check_basic_auth, hm, hex, hscheme]
    simpa using hex
  · intro exempt user pwd method path auth tok hm hex hscheme hsplit hb64
    simp [check_basic_auth, hm, hex, hscheme, hsplit, hb64]
    simpa using hex
  · intro exempt user pwd method path auth tok bs cps hm hex hscheme hsplit hb64 hutf hcolon
    simp [check_basic_auth, hm, hex, hscheme, hsplit, hb64, hutf, hcolon]
    simpa using hex
  · intro exempt user pwd method path auth tok bs cps iu ip hm hex hscheme hsplit hb64
      hutf hcolon hA1 hA2 hA3 hA4 hmis
    by_cases hiu : iu = user
    · have hip : ip ≠ pwd := by
        rcases hmis with h | h
        · exact absurd hiu h
        · exact h
      have hc1 : compare_digest iu user = .ok true := by
        simp [compare_digest, hA1, hA3, hiu]
      have hc2 : compare_digest ip pwd = .ok false := by
        simp [compare_digest, hA2, hA4, hip]
      simp [check_basic_auth, hm, hex, hscheme, hsplit, hb64, hutf, hcolon, hc1, hc2]
      simpa using hex
    · have hc1 : compare_digest iu user = .ok false := by
        simp [compare_digest, hA1, hA3, hiu]
      simp [check_basic_auth, hm, hex, hscheme, hsplit, hb64, hutf, hcolon, hc1]
      simpa using hex
  · intro exempt user pwd method path auth tok bs cps hm hex hscheme hsplit hb64 hutf hcolon
      hA1 hA2
    have hc1 : compare_digest user user = .ok true := by
      simp [compare_digest, hA1]
    have hc2 : compare_digest pwd pwd = .ok true := by
      simp [compare_digest, hA2]
    simp [check_basic_auth, hm, hex, hscheme, hsplit, hb64, hutf, hcolon, hc1, hc2]

/-- C8, witness exercising all six conjuncts of the amended gate theorem at
concrete requests: missing header, non-Basic scheme, invalid base64, decoded
text without a colon, mismatched ASCII credentials, and a matching pair. -/
theorem C8_basic_auth_gate_witness :
    check_basic_auth app_exempt_paths userDemo pwdDemo "POST" "/api/generate-pdf" none
      = .resp unauthorized_response
  ∧ check_basic_auth app_exempt_paths userDemo pwdDemo "POST" "/api/generate-pdf"
      (some "Token abc") = .resp unauthorized_response
  ∧ check_basic_auth app_exempt_paths userDemo pwdDemo "POST" "/api/generate-pdf"
      (some "Basic $$$$") = .resp unauthorized_response
  ∧ check_basic_auth app_exempt_paths userDemo pwdDemo "POST" "/api/generate-pdf"
      (some "Basic YWJj") = .resp unauthorized_response
  ∧ check_basic_auth app_exempt_paths userDemo pwdDemo "POST" "/api/generate-pdf"
      (some "Basic YTpi") = .resp unauthorized_response
  ∧ check_basic_auth app_exempt_paths userDemo pwdDemo "POST" "/api/generate-pdf"
      (some "Basic YWRtaW46c2VjcmV0") = .pass :=
  ⟨C8_basic_auth_gate.1 app_exempt_paths userDemo pwdDemo "POST" "/api/generate-pdf"
      (by decide) (by decide),
   C8_basic_auth_gate.2.1 app_exempt_paths userDemo pwdDemo "POST" "/api/generate-pdf"
      "Token abc" (by decide) (by decide) (by decide),
   C8_basic_auth_gate.2.2.1 app_exempt_paths userDemo pwdDemo "POST" "/api/generate-pdf"
      "Basic $$$$" "$$$$" (by decide) (by decide) (by decide) (by decide) (by decide),
   C8_basic_auth_gate.2.2.2.1 app_exempt_paths userDemo pwdDemo "POST" "/api/generate-pdf"
      "Basic YWJj" "YWJj" [97, 98, 99] [97, 98, 99]
      (by decide) (by decide) (by decide) (by decide) (by decide) (by decide) (by decide),
   C8_basic_auth_gate.2.2.2.2.1 app_exempt_paths userDemo pwdDemo "POST" "/api/generate-pdf"
      "Basic YTpi" "YTpi" [97, 58, 98] [97, 58, 98] [97] [98]
      (by decide) (by decide) (by decide) (by decide) (by decide) (by decide) (by decide)
      (by decide) (by decide) (by decide) (by decide) (Or.inl (by decide)),
   C8_basic_auth_gate.2.2.2.2.2 app_exempt_paths userDemo pwdDemo "POST" "/api/generate-pdf"
      "Basic YWRtaW46c2VjcmV0" "YWRtaW46c2VjcmV0"
      [97, 100, 109, 105, 110, 58, 115, 101, 99, 114, 101, 116]
      [97, 100, 109, 105, 110, 58, 115, 101, 99, 114, 101, 116]
      (by decide) (by decide) (by decide) (by decide) (by decide) (by decide) (by decide)
      (by decide) (by decide)⟩

/-- C10. The generate-pdf boundary appends the j2 suffix to the
caller-supplied template name before invoking the service: even when a file
with the caller-spelled name exists under the templates root, the request is
answered with the not-found message naming the suffixed file; and the
suggested download filename is derived from the original caller-supplied
name (the stem of empresa.html, not of empresa.html.j2). -/
theorem C10_j2_suffix :
    (∀ (eng : Engine) (dir : String) (fs : FS) (t : String) (ctx : Ctx)
        (out : String), t ≠ "" →
        pathName (t ++ ".j2") = t ++ ".j2" →
        fs.existsPath (dir ++ "/" ++ t) = true →
        fs.existsPath (dir ++ "/" ++ (t ++ ".j2")) = false →
      (generate_pdf_endpoint eng dir fs ⟨true, true, some t, true, ctx, some out⟩).1
        = .jsonErr 404 ("Template no encontrado: " ++ (t ++ ".j2")))
  ∧ download_name "empresa.html" = "empresa.pdf"
  ∧ download_name ("empresa.html" ++ ".j2") = "empresa.html.pdf" := by
  refine ⟨?_, by decide, by decide⟩
  intro eng dir fs t ctx out hne h1 _hpresent h2
  simp [generate_pdf_endpoint, generate_pdf, hne, h1, h2]

/-- C10, witness: the templates root holds empresa.html but not
empresa.html.j2, and the request naming empresa.html is answered 404 for
empresa.html.j2. -/
theorem C10_j2_suffix_witness :
    (generate_pdf_endpoint engOk "/app/templates" fsNoSuffix
        ⟨true, true, some "empresa.html", true, [], some "x.pdf"⟩).1
      = .jsonErr 404 ("Template no encontrado: " ++ ("empresa.html" ++ ".j2")) :=
  C10_j2_suffix.1 engOk "/app/templates" fsNoSuffix "empresa.html" [] "x.pdf"
    (by decide) (by decide) (by decide) (by decide)

end Comfaca
